import Mathlib

/-!
Verification of the forge_agents workflow-orchestration core.

This file gives a shallow embedding, in Lean 4, of the event bus
(`src/crates/forge_agents/src/events/mod.rs`), the persisted state store with
advisory locking (`src/state/doc_sync_state.rs`), the behavior-module event
pattern matcher and the iteration-decision module (`src/core/behavior.rs`),
the file-operation runner (`src/agents/doc_runner_agent.rs`) and the quality
verifier (`src/agents/doc_verifier_agent.rs`), together with theorems about
the properties the specification asserts of them.

Modelling conventions:
* Rust `HashMap` values are modelled as association lists with
  insert-replaces-key (`upsert`) and `List.lookup` semantics.
* Machine integers (`u32`, `u64`, `usize`) are modelled as `Nat`; none of the
  verified code paths can overflow their 64-bit counters.
* `f64` scores are modelled as `Rat`; every score computed by the verified
  code is a small exact rational (0, 0.8, 1, or a quotient of small counts).
* Wall-clock time (`SystemTime`) is passed explicitly as a `Nat` number of
  seconds (`now`); `now.duration_since t` is Nat subtraction.
* Filesystem reads/writes are modelled against explicit finite maps; fallible
  I/O is modelled with `Except`.
-/

namespace Forge

/-! ## Association-list helpers (model of `HashMap`) -/

/-- Remove every binding for key `k` (model of `HashMap::remove`). -/
def eraseKey (k : String) (l : List (String × α)) : List (String × α) :=
  l.filter fun p => p.1 != k

/-- Insert binding `k ↦ v`, replacing any previous binding
(model of `HashMap::insert`). -/
def upsert (k : String) (v : α) (l : List (String × α)) : List (String × α) :=
  (k, v) :: eraseKey k l

theorem lookup_eraseKey_self (k : String) (l : List (String × α)) :
    (eraseKey k l).lookup k = none := by
  induction l with
  | nil => rfl
  | cons p t ih =>
    by_cases h : p.1 = k
    · simp [eraseKey, List.filter, h] at *
      exact ih
    · have hb : (p.1 != k) = true := by simp [bne, h]
      simp [eraseKey, List.filter, hb, List.lookup] at *
      have : (k == p.1) = false := by
        simp [BEq.beq]
        exact fun hk => h hk.symm
      simp [this]
      exact ih

theorem lookup_upsert_self (k : String) (v : α) (l : List (String × α)) :
    (upsert k v l).lookup k = some v := by
  simp [upsert, List.lookup]

/-- Substring test on character lists: does `needle` occur contiguously in
`hay`?  Model of Rust `str::contains` for literal needles. -/
def listContainsSub (needle : List Char) : List Char → Bool
  | [] => needle.isEmpty
  | c :: t => needle.isPrefixOf (c :: t) || listContainsSub needle t

/-- Model of Rust `str::contains(pat)` (substring containment). -/
def strContainsSub (hay pat : String) : Bool :=
  listContainsSub pat.data hay.data

/-- Model of Rust `str::starts_with(pre)` on strings. -/
def strStarts (s pre : String) : Bool :=
  pre.data.isPrefixOf s.data

/-- Model of Rust `str::ends_with(post)` on strings. -/
def strEnds (s post : String) : Bool :=
  post.data.isSuffixOf s.data

/-- Model of the byte slice `&pattern[0..pattern.len() - 1]` for the ASCII
patterns used here: the string minus its final character. -/
def strDropLast (s : String) : String :=
  String.mk s.data.dropLast

/-! ## JSON values (model of `serde_json::Value`) -/

inductive JsonValue where
  | null
  | bool (b : Bool)
  | num (x : Rat)
  | str (s : String)
  | arr (elems : List JsonValue)
  | obj (fields : List (String × JsonValue))

/-- Model of `serde_json::Value::get(key)` on objects. -/
def JsonValue.get (v : JsonValue) (key : String) : Option JsonValue :=
  match v with
  | .obj fields => fields.lookup key
  | _ => none

/-- Model of `Value::as_bool`. -/
def JsonValue.as_bool : JsonValue → Option Bool
  | .bool b => some b
  | _ => none

/-- Model of `Value::as_f64` (numbers only; scores are exact rationals here). -/
def JsonValue.as_f64 : JsonValue → Option Rat
  | .num x => some x
  | _ => none

/-! ## Behavior modules: event pattern matching (`src/core/behavior.rs`) -/

/-- Model of `BaseBehaviorModule` (the fields used by pattern matching). -/
structure BaseBehaviorModule where
  name : String
  event_patterns : List String
  required_tools : List String
  config : List (String × String)

/-- Model of `BaseBehaviorModule::matches_event_pattern`: a pattern ending in
`*` matches by prefix (pattern minus its final byte), any other pattern
matches by string equality; the module matches if any registered pattern
does. -/
def BaseBehaviorModule.matches_event_pattern
    (m : BaseBehaviorModule) (event_name : String) : Bool :=
  m.event_patterns.any fun pattern =>
    if strEnds pattern "*" then
      strStarts event_name (strDropLast pattern)
    else
      event_name == pattern

/-! ## Iteration decision (`IterationDecisionModule::evaluate_requirements`) -/

/-- Satisfaction of one requirement entry against the verification payload,
as computed inside the `for` loop of `evaluate_requirements`: a boolean field
must equal the required value; a numeric field must exceed the fixed 0.7
threshold; a missing or non-boolean, non-numeric field is unsatisfied. -/
def requirementSatisfied (verification_results : JsonValue)
    (req_key : String) (required_value : Bool) : Bool :=
  match verification_results.get req_key with
  | some value =>
    match value.as_bool with
    | some bool_value => bool_value == required_value
    | none =>
      match value.as_f64 with
      | some num_value => decide (num_value > 7 / 10)
      | none => false
  | none => false

/-- Model of `IterationDecisionModule::evaluate_requirements`.  Folds over the
requirement map accumulating the per-requirement satisfaction list and the
`all_satisfied` flag, then returns
`continue_iteration = !all_satisfied && current_iteration < max_iterations`
paired with the satisfaction map. -/
def evaluate_requirements (verification_results : JsonValue)
    (requirements : List (String × Bool))
    (current_iteration max_iterations : Nat) :
    Bool × List (String × Bool) :=
  let r := requirements.foldl
    (fun acc req =>
      let is_satisfied := requirementSatisfied verification_results req.1 req.2
      (acc.1 ++ [(req.1, is_satisfied)], acc.2 && is_satisfied))
    ([], true)
  let continue_iteration := !r.2 && decide (current_iteration < max_iterations)
  (continue_iteration, r.1)

/-! ## Documentation-map data model (`src/events/doc_sync_events.rs`) -/

structure DocSourceFile where
  path : String
  content_hash : String
  metadata : List (String × String)
  last_updated : Nat

structure DocTargetFile where
  path : String
  content_hash : String
  file_type : String
  metadata : List (String × String)
  last_updated : Nat

structure DocRelationship where
  source_path : String
  target_path : String
  relationship_type : String
  metadata : List (String × String)

/-- Model of `DocumentationMap` (the blackboard exchanged between phases). -/
structure DocumentationMap where
  source_files : List (String × DocSourceFile)
  target_files : List (String × DocTargetFile)
  relationships : List DocRelationship
  metadata : List (String × String)

/-- Model of `DocumentationMap::default()` (derived `Default`: empty maps). -/
def DocumentationMap.default : DocumentationMap :=
  { source_files := [], target_files := [], relationships := [], metadata := [] }

/-- Model of `QualityMetrics` (scores as exact rationals). -/
structure QualityMetrics where
  content_quality : Rat
  structure_quality : Rat
  ui_quality : Rat
  css_quality : Rat
  technical_quality : Rat
  overall_quality : Rat
  metadata : List (String × String)

/-! ## Sync operations and execution payloads -/

structure ContentOperation where
  operation_type : String
  source_path : String
  target_path : String
  content : Option String
  metadata : List (String × String)

structure StructureOperation where
  operation_type : String
  target_path : String
  content : Option String
  metadata : List (String × String)

structure UiOperation where
  operation_type : String
  target_path : String
  content : Option String
  metadata : List (String × String)

structure CssOperation where
  operation_type : String
  target_path : String
  content : Option String
  metadata : List (String × String)

/-- Model of the tagged `SyncOperation` enum. -/
inductive SyncOperation where
  | contentOperation (op : ContentOperation)
  | structureOperation (op : StructureOperation)
  | uiOperation (op : UiOperation)
  | cssOperation (op : CssOperation)

/-- The `operation_type` of a `SyncOperation`, as matched repeatedly in
`DocRunnerAgent::handle_execute_event`. -/
def SyncOperation.operation_type : SyncOperation → String
  | .contentOperation op => op.operation_type
  | .structureOperation op => op.operation_type
  | .uiOperation op => op.operation_type
  | .cssOperation op => op.operation_type

/-- The `target_path` of a `SyncOperation`, as matched repeatedly in
`DocRunnerAgent::handle_execute_event`. -/
def SyncOperation.target_path : SyncOperation → String
  | .contentOperation op => op.target_path
  | .structureOperation op => op.target_path
  | .uiOperation op => op.target_path
  | .cssOperation op => op.target_path

structure ExecutionParams where
  dry_run : Bool
  max_parallel_operations : Nat
  backup : Bool
  metadata : List (String × String)

structure ExecutionResults where
  successful_operations : Nat
  failed_operations : Nat
  skipped_operations : Nat
  metadata : List (String × String)

structure ExecutionLogEntry where
  operation_type : String
  status : String
  target_path : String
  error_message : Option String
  metadata : List (String × String)
  timestamp : Nat

structure ExecutePayload where
  doc_map : DocumentationMap
  operations : List SyncOperation
  execution_params : ExecutionParams

structure ExecutionCompletePayload where
  doc_map : DocumentationMap
  execution_results : ExecutionResults
  execution_log : List ExecutionLogEntry

/-- Model of the `DocSyncPayload` enum.  The source enum has twenty variants;
the code verified in this file (the runner and the event bus) only ever
distinguishes the `Execute` and `ExecutionComplete` payloads from the rest,
so the remaining variants are collapsed into `otherPayload` carrying their
discriminant tag. -/
inductive DocSyncPayload where
  | execute (p : ExecutePayload)
  | executionComplete (p : ExecutionCompletePayload)
  | otherPayload (tag : String)

/-- Model of `DocSyncEvent`. -/
structure DocSyncEvent where
  event_type : String
  payload : DocSyncPayload
  source_agent : String
  target_agent : String
  timestamp : Nat
  correlation_id : String

/-! ## Event bus (`src/events/mod.rs`) -/

/-- Model of the `EventError` enum. -/
inductive EventError where
  | handlerRegistrationError (msg : String)
  | emitError (msg : String)
  | handlerError (msg : String)
  | invalidPayload (msg : String)
  | stateError (msg : String)
  | serializationError (msg : String)

/-- Display form of an `EventError`, following the `thiserror` format strings
on the enum. -/
def EventError.message : EventError → String
  | .handlerRegistrationError m => "Failed to register event handler: " ++ m
  | .emitError m => "Failed to emit event: " ++ m
  | .handlerError m => "Event handler error: " ++ m
  | .invalidPayload m => "Invalid event payload: " ++ m
  | .stateError m => "State error: " ++ m
  | .serializationError m => "Serialization error: " ++ m

/-- Model of the `Event` enum (a doc-sync event or a custom named event). -/
inductive Event where
  | docSync (e : DocSyncEvent)
  | custom (nm : String) (payload : JsonValue)

/-- Model of `Event::name`: doc-sync events are named by prefixing their
`event_type` with the literal `doc_sync.`; custom events carry their name. -/
def Event.name : Event → String
  | .docSync e => "doc_sync." ++ e.event_type
  | .custom nm _ => nm

/-- An event handler: a synchronous function from the event to a result
(model of `Box<dyn Fn(Event) -> Result<(), EventError>>`). -/
def Handler : Type := Event → Except EventError Unit

/-- The handler table of `EventSystem`: event name to the ordered list of
handlers registered for exactly that name. -/
def EventSystem : Type := List (String × List Handler)

/-- Model of `EventSystem::register_handler`: append `handler` to the list
for exactly `event_name` (`entry(..).or_insert_with(Vec::new).push(..)`). -/
def register_handler (sys : EventSystem) (event_name : String)
    (handler : Handler) : EventSystem :=
  match sys.lookup event_name with
  | some hs => upsert event_name (hs ++ [handler]) sys
  | none => upsert event_name [handler] sys

/-- The dispatch loop inside `EventSystem::emit`: run each handler in order;
the first error is wrapped as `HandlerError` (with the format string used in
the source) and aborts the loop. -/
def runHandlers (event_name : String) (ev : Event) :
    List Handler → Except EventError Unit
  | [] => .ok ()
  | h :: rest =>
    match h ev with
    | .ok _ => runHandlers event_name ev rest
    | .error e =>
      .error (.handlerError
        ("Handler error for event " ++ event_name ++ ": " ++ e.message))

/-- Model of `EventSystem::emit`: look up the handlers registered for
`event.name()` and run them synchronously in registration order; with no
handlers registered the emit succeeds. -/
def emit (sys : EventSystem) (ev : Event) : Except EventError Unit :=
  match sys.lookup ev.name with
  | some hs => runHandlers ev.name ev hs
  | none => .ok ()

/-! ## Persisted workflow state (`src/state/doc_sync_state.rs`) -/

/-- Model of the `StateError` enum. -/
inductive StateError where
  | fileIo
  | jsonSerialization
  | lockError (msg : String)
  | notFound (id : String)
  | lockTimeout (msg : String)
deriving DecidableEq

structure SyncTask where
  task_id : String
  task_type : String
  status : String
  assigned_to : String
  parameters : List (String × String)
  created_at : Nat
  updated_at : Nat

structure SyncError where
  error_type : String
  description : String
  related_task_id : Option String
  related_paths : List String
  timestamp : Nat
  metadata : List (String × String)

structure IterationState where
  iteration_number : Nat
  timestamp : Nat
  quality_scores : Option QualityMetrics
  verification_results : List (String × Bool)
  tasks_completed : Nat
  tasks_pending : Nat
  issues_found : Nat
  issues_resolved : Nat

/-- Model of `DocSyncState`, the persisted per-workflow state. -/
structure DocSyncState where
  master_doc_map : DocumentationMap
  pending_tasks : List SyncTask
  completed_tasks : List SyncTask
  error_log : List SyncError
  quality_scores : Option QualityMetrics
  metadata : List (String × String)
  last_updated : Nat
  current_iteration : Nat
  max_iterations : Nat
  iteration_history : List IterationState
  requirements_satisfied : List (String × Bool)

/-- Model of `DocSyncState::default()`; `last_updated` is stamped with the
current time, passed explicitly. -/
def defaultDocSyncState (now : Nat) : DocSyncState :=
  { master_doc_map := DocumentationMap.default
    pending_tasks := []
    completed_tasks := []
    error_log := []
    quality_scores := none
    metadata := []
    last_updated := now
    current_iteration := 1
    max_iterations := 5
    iteration_history := []
    requirements_satisfied := [] }

/-- What the state directory holds for one correlation id: a JSON file that
parses to a state, or a file whose read or parse fails (modelling the
`FileIo`/`JsonSerialization` failure modes of `read_state`). -/
inductive StoredFile where
  | valid (s : DocSyncState)
  | corrupt

/-- Model of a `StateManager` together with the state directory it owns:
the per-id stored files, the in-memory advisory-lock map (id to acquisition
timestamp, in seconds), the lock timeout (default 60 seconds), and the set of
ids whose underlying file write fails (modelling fallible disk I/O). -/
structure ManagerState where
  files : List (String × StoredFile)
  locks : List (String × Nat)
  lock_timeout : Nat
  failWrites : List String

/-- Model of `StateManager::new`: empty lock map and the default 60-second
lock timeout. -/
def newStateManager : ManagerState :=
  { files := [], locks := [], lock_timeout := 60, failWrites := [] }

/-- Model of `StateManager::read_state`: a missing file is `NotFound`; an
unreadable or unparsable file is a read error (represented as
`JsonSerialization`). -/
def read_state (m : ManagerState) (correlation_id : String) :
    Except StateError DocSyncState :=
  match m.files.lookup correlation_id with
  | none => .error (.notFound correlation_id)
  | some .corrupt => .error .jsonSerialization
  | some (.valid s) => .ok s

/-- Model of `StateManager::write_state` at the level of the state store:
serialize and store the full state under the correlation id, failing with
`FileIo` for ids whose disk write fails.  (The byte-level write sequence is
modelled separately by `write_state_steps`.) -/
def write_state (m : ManagerState) (correlation_id : String)
    (state : DocSyncState) : Except StateError ManagerState :=
  if m.failWrites.contains correlation_id then .error .fileIo
  else .ok { m with files := upsert correlation_id (.valid state) m.files }

/-- Model of `StateManager::lock_state`: fail with `LockError` when an
unexpired lock timestamp exists (age strictly below the timeout); otherwise
record the current time as the lock timestamp (silently replacing an expired
entry). -/
def lock_state (m : ManagerState) (now : Nat) (correlation_id : String) :
    Except StateError ManagerState :=
  match m.locks.lookup correlation_id with
  | some lock_time =>
    if now - lock_time < m.lock_timeout then
      .error (.lockError
        ("State is already locked for correlation ID: " ++ correlation_id))
    else
      .ok { m with locks := upsert correlation_id now m.locks }
  | none => .ok { m with locks := upsert correlation_id now m.locks }

/-- Model of `StateManager::unlock_state`: remove the lock entry (a no-op for
an unheld id).  Mutex poisoning, the only failure path in the source, is not
modelled, so unlocking always succeeds. -/
def unlock_state (m : ManagerState) (correlation_id : String) : ManagerState :=
  { m with locks := eraseKey correlation_id m.locks }

/-- The tail of `StateManager::update_state` after the current state has been
obtained: apply the update function, stamp `last_updated`, write, then unlock
and return the write result. -/
def update_state_go (m1 : ManagerState) (now : Nat) (correlation_id : String)
    (state : DocSyncState) (update_fn : DocSyncState → DocSyncState) :
    Except StateError Unit × ManagerState :=
  let s1 := update_fn state
  let s2 := { s1 with last_updated := now }
  match write_state m1 correlation_id s2 with
  | .ok m2 => (.ok (), unlock_state m2 correlation_id)
  | .error e => (.error e, unlock_state m1 correlation_id)

/-- Model of `StateManager::update_state`: acquire the advisory lock, read
the current state (substituting a fresh default when none exists), apply the
update function, stamp `last_updated`, write, and release the lock on every
exit path after acquisition (read error, write error, or success). -/
def update_state (m : ManagerState) (now : Nat) (correlation_id : String)
    (update_fn : DocSyncState → DocSyncState) :
    Except StateError Unit × ManagerState :=
  match lock_state m now correlation_id with
  | .error e => (.error e, m)
  | .ok m1 =>
    match read_state m1 correlation_id with
    | .ok s => update_state_go m1 now correlation_id s update_fn
    | .error (.notFound _) =>
      update_state_go m1 now correlation_id (defaultDocSyncState now) update_fn
    | .error e => (.error e, unlock_state m1 correlation_id)

/-! ## Byte-level view of `write_state` (for the atomicity question)

`StateManager::write_state` creates the parent directory if needed, then
opens the target file with `File::create` (which truncates any existing file
in place) and writes the serialized state with `write_all`.  The following
definitions replay those primitive filesystem steps so that the states a
concurrent reader could observe can be examined. -/

/-- A directory tree: the set of existing directories and the files with
their current contents. -/
structure DiskFs where
  dirs : List String
  files : List (String × String)
deriving DecidableEq

/-- Model of `StateManager::get_state_file_path`. -/
def state_file_path (state_dir correlation_id : String) : String :=
  state_dir ++ "/" ++ correlation_id ++ ".json"

/-- The sequence of filesystem states a concurrent reader can observe while
`write_state` runs, in order: after `create_dir_all` on the parent directory,
after `File::create` (which truncates the file to empty contents in place),
and after `write_all` (the full serialized state).  The source writes
directly to the final path; there is no temp-file-and-rename step. -/
def write_state_steps (fs : DiskFs) (state_dir correlation_id state_json : String) :
    List DiskFs :=
  let file_path := state_file_path state_dir correlation_id
  let fs1 : DiskFs :=
    { dirs := if fs.dirs.contains state_dir then fs.dirs else state_dir :: fs.dirs
      files := fs.files }
  let fs2 : DiskFs := { fs1 with files := upsert file_path "" fs1.files }
  let fs3 : DiskFs := { fs2 with files := upsert file_path state_json fs2.files }
  [fs1, fs2, fs3]

/-! ## Doc runner (`src/agents/doc_runner_agent.rs`) -/

/-- Model of the `DocRunnerError` enum. -/
inductive DocRunnerError where
  | stateError (e : StateError)
  | eventSystemError (msg : String)
  | invalidPayload (msg : String)
  | fileOperationError (msg : String)
  | validationError (msg : String)
  | ioError
  | executionError (msg : String)
deriving DecidableEq

/-- Display form of a `DocRunnerError`, following the `thiserror` format
strings (I/O error details are elided). -/
def DocRunnerError.message : DocRunnerError → String
  | .stateError _ => "State error"
  | .eventSystemError m => "Event system error: " ++ m
  | .invalidPayload m => "Invalid event payload: " ++ m
  | .fileOperationError m => "File operation error: " ++ m
  | .validationError m => "File validation error: " ++ m
  | .ioError => "IO error"
  | .executionError m => "Execution error: " ++ m

/-- The filesystem the runner operates on: target path to file contents.
Directories are not tracked (`create_dir_all` cannot fail into the verified
paths); a path exists when it holds a file. -/
def Fs : Type := List (String × String)

/-- Model of `Path::exists` on the runner filesystem. -/
def fsExists (fs : Fs) (path : String) : Bool :=
  (fs.lookup path).isSome

/-- Model of `OperationResult`. -/
structure OperationResult where
  operation_type : String
  status : String
  target_path : String
  error_message : Option String
  metadata : List (String × String)
  timestamp : Nat

/-- Model of `DocRunnerAgent::validate_content_operation`: reject a target
path containing `..`; reject delete/update of a missing file and create of an
existing file; require content for create and update. -/
def validate_content_operation (fs : Fs) (operation : ContentOperation) :
    Except DocRunnerError Unit :=
  if strContainsSub operation.target_path ".." then
    .error (.validationError
      ("Path contains .. which is not allowed: " ++ operation.target_path))
  else if operation.operation_type == "delete"
      && !(fsExists fs operation.target_path) then
    .error (.validationError
      ("Cannot delete non-existent file: " ++ operation.target_path))
  else if operation.operation_type == "update"
      && !(fsExists fs operation.target_path) then
    .error (.validationError
      ("Cannot update non-existent file: " ++ operation.target_path))
  else if operation.operation_type == "create"
      && fsExists fs operation.target_path then
    .error (.validationError
      ("Cannot create file that already exists: " ++ operation.target_path))
  else if (operation.operation_type == "create"
      || operation.operation_type == "update")
      && operation.content.isNone then
    .error (.validationError
      ("Content is required for " ++ operation.operation_type
        ++ " operation on " ++ operation.target_path))
  else
    .ok ()

/-- Model of `DocRunnerAgent::validate_structure_operation`: reject `..` in
the target path; require content for `update_sidebar`/`update_navigation`. -/
def validate_structure_operation (operation : StructureOperation) :
    Except DocRunnerError Unit :=
  if strContainsSub operation.target_path ".." then
    .error (.validationError
      ("Path contains .. which is not allowed: " ++ operation.target_path))
  else if (operation.operation_type == "update_sidebar"
      || operation.operation_type == "update_navigation")
      && operation.content.isNone then
    .error (.validationError
      ("Content is required for " ++ operation.operation_type
        ++ " operation on " ++ operation.target_path))
  else
    .ok ()

/-- Model of `DocRunnerAgent::validate_ui_operation`: reject `..` in the
target path; require content for `update_component`. -/
def validate_ui_operation (operation : UiOperation) :
    Except DocRunnerError Unit :=
  if strContainsSub operation.target_path ".." then
    .error (.validationError
      ("Path contains .. which is not allowed: " ++ operation.target_path))
  else if operation.operation_type == "update_component"
      && operation.content.isNone then
    .error (.validationError
      ("Content is required for " ++ operation.operation_type
        ++ " operation on " ++ operation.target_path))
  else
    .ok ()

/-- Model of `DocRunnerAgent::validate_css_operation`: reject `..` in the
target path; require content for `update_style`. -/
def validate_css_operation (operation : CssOperation) :
    Except DocRunnerError Unit :=
  if strContainsSub operation.target_path ".." then
    .error (.validationError
      ("Path contains .. which is not allowed: " ++ operation.target_path))
  else if operation.operation_type == "update_style"
      && operation.content.isNone then
    .error (.validationError
      ("Content is required for " ++ operation.operation_type
        ++ " operation on " ++ operation.target_path))
  else
    .ok ()

/-- Model of `DocRunnerAgent::validate_operation` (dispatch by variant). -/
def validate_operation (fs : Fs) : SyncOperation → Except DocRunnerError Unit
  | .contentOperation op => validate_content_operation fs op
  | .structureOperation op => validate_structure_operation op
  | .uiOperation op => validate_ui_operation op
  | .cssOperation op => validate_css_operation op

/-- The validation loop of `handle_execute_event`: validate every operation
in order, propagating the first error (the `?` operator in the source). -/
def validate_all (fs : Fs) : List SyncOperation → Except DocRunnerError Unit
  | [] => .ok ()
  | op :: rest =>
    match validate_operation fs op with
    | .ok _ => validate_all fs rest
    | .error e => .error e

/-- Model of `DocRunnerAgent::execute_content_operation`: create and update
write the provided content to the target path (`File::create` + `write_all`,
creating parent directories); delete removes the file (`fs::remove_file`
fails with an I/O error when the file is missing); other operation types are
an `ExecutionError`. -/
def execute_content_operation (fs : Fs) (now : Nat)
    (operation : ContentOperation) :
    Except DocRunnerError (OperationResult × Fs) :=
  match operation.operation_type with
  | "create" =>
    match operation.content with
    | none =>
      .error (.executionError
        ("Content is required for create operation on " ++ operation.target_path))
    | some content =>
      .ok ({ operation_type := "create", status := "success"
             target_path := operation.target_path, error_message := none
             metadata := [], timestamp := now },
           upsert operation.target_path content fs)
  | "update" =>
    match operation.content with
    | none =>
      .error (.executionError
        ("Content is required for update operation on " ++ operation.target_path))
    | some content =>
      .ok ({ operation_type := "update", status := "success"
             target_path := operation.target_path, error_message := none
             metadata := [], timestamp := now },
           upsert operation.target_path content fs)
  | "delete" =>
    if fsExists fs operation.target_path then
      .ok ({ operation_type := "delete", status := "success"
             target_path := operation.target_path, error_message := none
             metadata := [], timestamp := now },
           eraseKey operation.target_path fs)
    else
      .error .ioError
  | _ =>
    .error (.executionError
      ("Unsupported operation type: " ++ operation.operation_type))

/-- Model of `DocRunnerAgent::execute_structure_operation`:
`update_sidebar`/`update_navigation` write the provided content; other
operation types are an `ExecutionError`. -/
def execute_structure_operation (fs : Fs) (now : Nat)
    (operation : StructureOperation) :
    Except DocRunnerError (OperationResult × Fs) :=
  if operation.operation_type == "update_sidebar"
      || operation.operation_type == "update_navigation" then
    match operation.content with
    | none =>
      .error (.executionError
        ("Content is required for " ++ operation.operation_type
          ++ " operation on " ++ operation.target_path))
    | some content =>
      .ok ({ operation_type := operation.operation_type, status := "success"
             target_path := operation.target_path, error_message := none
             metadata := [], timestamp := now },
           upsert operation.target_path content fs)
  else
    .error (.executionError
      ("Unsupported operation type: " ++ operation.operation_type))

/-- Model of `DocRunnerAgent::execute_ui_operation`:
`update_component`/`add_component` write the provided content; other
operation types are an `ExecutionError`. -/
def execute_ui_operation (fs : Fs) (now : Nat) (operation : UiOperation) :
    Except DocRunnerError (OperationResult × Fs) :=
  if operation.operation_type == "update_component"
      || operation.operation_type == "add_component" then
    match operation.content with
    | none =>
      .error (.executionError
        ("Content is required for " ++ operation.operation_type
          ++ " operation on " ++ operation.target_path))
    | some content =>
      .ok ({ operation_type := operation.operation_type, status := "success"
             target_path := operation.target_path, error_message := none
             metadata := [], timestamp := now },
           upsert operation.target_path content fs)
  else
    .error (.executionError
      ("Unsupported operation type: " ++ operation.operation_type))

/-- Model of `DocRunnerAgent::execute_css_operation`:
`update_style`/`add_style` write the provided content; other operation types
are an `ExecutionError`. -/
def execute_css_operation (fs : Fs) (now : Nat) (operation : CssOperation) :
    Except DocRunnerError (OperationResult × Fs) :=
  if operation.operation_type == "update_style"
      || operation.operation_type == "add_style" then
    match operation.content with
    | none =>
      .error (.executionError
        ("Content is required for " ++ operation.operation_type
          ++ " operation on " ++ operation.target_path))
    | some content =>
      .ok ({ operation_type := operation.operation_type, status := "success"
             target_path := operation.target_path, error_message := none
             metadata := [], timestamp := now },
           upsert operation.target_path content fs)
  else
    .error (.executionError
      ("Unsupported operation type: " ++ operation.operation_type))

/-- Model of `DocRunnerAgent::execute_operation` (dispatch by variant). -/
def execute_operation (fs : Fs) (now : Nat) :
    SyncOperation → Except DocRunnerError (OperationResult × Fs)
  | .contentOperation op => execute_content_operation fs now op
  | .structureOperation op => execute_structure_operation fs now op
  | .uiOperation op => execute_ui_operation fs now op
  | .cssOperation op => execute_css_operation fs now op

/-- The non-dry-run execution loop of `handle_execute_event`: execute each
operation in order; an `Ok` result is logged with its status (which bumps the
matching counter); an `Err` is recovered into a `"failure"` log entry with
the formatted message and bumps the failed counter, and the loop continues
with the remaining operations.  (The progress `info!` every five completed
operations has no observable effect and is not modelled.) -/
def execute_ops (now : Nat) :
    Fs → List SyncOperation → ExecutionResults → List ExecutionLogEntry →
    ExecutionResults × List ExecutionLogEntry × Fs
  | fs, [], results, log => (results, log, fs)
  | fs, op :: rest, results, log =>
    match execute_operation fs now op with
    | .ok (result, fs1) =>
      let entry : ExecutionLogEntry :=
        { operation_type := result.operation_type, status := result.status
          target_path := result.target_path
          error_message := result.error_message
          metadata := result.metadata, timestamp := result.timestamp }
      let results1 :=
        if result.status == "success" then
          { results with successful_operations := results.successful_operations + 1 }
        else if result.status == "failure" then
          { results with failed_operations := results.failed_operations + 1 }
        else if result.status == "skipped" then
          { results with skipped_operations := results.skipped_operations + 1 }
        else results
      execute_ops now fs1 rest results1 (log ++ [entry])
    | .error e =>
      let error_message := "Error executing operation: " ++ e.message
      let entry : ExecutionLogEntry :=
        { operation_type := op.operation_type, status := "failure"
          target_path := op.target_path
          error_message := some error_message
          metadata := [], timestamp := now }
      execute_ops now fs rest
        { results with failed_operations := results.failed_operations + 1 }
        (log ++ [entry])

/-- The dry-run loop of `handle_execute_event`: log every operation as
`"skipped"` (reason `dry_run`) and bump the skipped counter; no filesystem
access happens. -/
def dry_run_ops (now : Nat) :
    List SyncOperation → ExecutionResults → List ExecutionLogEntry →
    ExecutionResults × List ExecutionLogEntry
  | [], results, log => (results, log)
  | op :: rest, results, log =>
    let entry : ExecutionLogEntry :=
      { operation_type := op.operation_type, status := "skipped"
        target_path := op.target_path, error_message := none
        metadata := [("reason", "dry_run")], timestamp := now }
    dry_run_ops now rest
      { results with skipped_operations := results.skipped_operations + 1 }
      (log ++ [entry])

/-- The world the runner acts on: the shared state manager and the target
filesystem.  State snapshots live in the state directory, which is modelled
inside `ManagerState` and is disjoint from the operation target paths. -/
structure RunnerWorld where
  manager : ManagerState
  fs : Fs

/-- The update closure `handle_execute_event` passes to `update_state` before
validation: record metadata status `executing`. -/
def executing_update (state : DocSyncState) : DocSyncState :=
  { state with metadata := upsert "status" "executing" state.metadata }

/-- The update closure `handle_execute_event` passes to `update_state` after
execution: record metadata status `execution_complete` and the formatted
execution summary. -/
def execution_complete_update (execution_results : ExecutionResults)
    (state : DocSyncState) : DocSyncState :=
  let summary :=
    toString execution_results.successful_operations ++ " succeeded, "
      ++ toString execution_results.failed_operations ++ " failed, "
      ++ toString execution_results.skipped_operations ++ " skipped"
  let md1 := upsert "status" "execution_complete" state.metadata
  { state with metadata := upsert "execution_summary" summary md1 }

/-- Model of `DocRunnerAgent::handle_execute_event`.  Extracts the `Execute`
payload (else `InvalidPayload`); marks the workflow `executing` through
`update_state`; validates every operation before touching any target file;
then either logs every operation as skipped (dry run) or executes each
operation fault-tolerantly; finally marks the workflow `execution_complete`
with a summary and returns the `ExecutionComplete` payload the source emits
to the event bus (emission itself is the bus dispatch modelled by `emit`). -/
def handle_execute_event (world : RunnerWorld) (now : Nat)
    (event : DocSyncEvent) :
    Except DocRunnerError ExecutionCompletePayload × RunnerWorld :=
  let correlation_id := event.correlation_id
  match event.payload with
  | .execute execute_payload =>
    match update_state world.manager now correlation_id executing_update with
    | (.error e, m1) => (.error (.stateError e), { world with manager := m1 })
    | (.ok _, m1) =>
      match validate_all world.fs execute_payload.operations with
      | .error e => (.error e, { world with manager := m1 })
      | .ok _ =>
        let initial : ExecutionResults :=
          { successful_operations := 0, failed_operations := 0
            skipped_operations := 0, metadata := [] }
        let step :=
          if execute_payload.execution_params.dry_run then
            let rl := dry_run_ops now execute_payload.operations initial []
            (rl.1, rl.2, world.fs)
          else
            execute_ops now world.fs execute_payload.operations initial []
        let execution_results := step.1
        let execution_log := step.2.1
        let fs1 := step.2.2
        match update_state m1 now correlation_id
            (execution_complete_update execution_results) with
        | (.error e, m2) => (.error (.stateError e), { manager := m2, fs := fs1 })
        | (.ok _, m2) =>
          (.ok { doc_map := execute_payload.doc_map
                 execution_results := execution_results
                 execution_log := execution_log },
           { manager := m2, fs := fs1 })
  | _ => (.error (.invalidPayload "Expected Execute payload"), world)

/-! ## Doc verifier (`src/agents/doc_verifier_agent.rs`)

Each `verify_*` check runs over the execution log and returns its success,
failure and skip counters together with a quality score.  The construction of
`VerificationLogEntry` records (messages and timestamps) has no effect on the
counters or scores and is elided here. -/

/-- The counters and quality score returned by one `verify_*` check. -/
structure CheckOutcome where
  successful : Nat
  failed : Nat
  skipped : Nat
  quality_score : Rat
deriving DecidableEq

/-- The scoring block shared by `verify_structure`, `verify_ui`, `verify_css`
and `verify_technical`: 1.0 with successes and no failures, the success ratio
with successes and failures, an assumed 0.8 when every check was skipped and
none failed, and 0.0 otherwise. -/
def quality_from_counts (successful failed skipped : Nat) : Rat :=
  if 0 < successful ∧ failed = 0 then 1
  else if 0 < successful then (successful : Rat) / ((successful + failed : Nat) : Rat)
  else if 0 < skipped ∧ failed = 0 then 4 / 5
  else 0

/-- The scoring block of `verify_content`.  Unlike the other four checks it
has no skipped branch: with no successes the score stays at its initial
0.0. -/
def quality_from_counts_content (successful failed : Nat) : Rat :=
  if 0 < successful ∧ failed = 0 then 1
  else if 0 < successful then (successful : Rat) / ((successful + failed : Nat) : Rat)
  else 0

/-- The count `verify_content` computes: log entries whose operation type
starts with `create` or `update` and whose status is `success`. -/
def content_ops_count (execution_log : List ExecutionLogEntry) : Nat :=
  ((execution_log.filter fun entry =>
      strStarts entry.operation_type "create"
        || strStarts entry.operation_type "update").filter fun entry =>
      entry.status == "success").length

/-- Model of `DocVerifierAgent::verify_content`: one check that succeeds iff
at least one content operation executed successfully; with none, the check is
counted as failed (there is no skip path in this function). -/
def verify_content (execution_log : List ExecutionLogEntry) : CheckOutcome :=
  if 0 < content_ops_count execution_log then
    { successful := 1, failed := 0, skipped := 0
      quality_score := quality_from_counts_content 1 0 }
  else
    { successful := 0, failed := 1, skipped := 0
      quality_score := quality_from_counts_content 0 1 }

/-- The count `verify_structure` computes: successful log entries whose
operation type mentions `sidebar` or `navigation`. -/
def structure_ops_count (execution_log : List ExecutionLogEntry) : Nat :=
  ((execution_log.filter fun entry =>
      strContainsSub entry.operation_type "sidebar"
        || strContainsSub entry.operation_type "navigation").filter fun entry =>
      entry.status == "success").length

/-- Model of `DocVerifierAgent::verify_structure`: one check; with no
relevant operations it is skipped, not failed. -/
def verify_structure (execution_log : List ExecutionLogEntry) : CheckOutcome :=
  if 0 < structure_ops_count execution_log then
    { successful := 1, failed := 0, skipped := 0
      quality_score := quality_from_counts 1 0 0 }
  else
    { successful := 0, failed := 0, skipped := 1
      quality_score := quality_from_counts 0 0 1 }

/-- The count `verify_ui` computes: successful log entries whose operation
type mentions `component`. -/
def ui_ops_count (execution_log : List ExecutionLogEntry) : Nat :=
  ((execution_log.filter fun entry =>
      strContainsSub entry.operation_type "component").filter fun entry =>
      entry.status == "success").length

/-- Model of `DocVerifierAgent::verify_ui`: one check; with no relevant
operations it is skipped, not failed. -/
def verify_ui (execution_log : List ExecutionLogEntry) : CheckOutcome :=
  if 0 < ui_ops_count execution_log then
    { successful := 1, failed := 0, skipped := 0
      quality_score := quality_from_counts 1 0 0 }
  else
    { successful := 0, failed := 0, skipped := 1
      quality_score := quality_from_counts 0 0 1 }

/-- The count `verify_css` computes: successful log entries whose operation
type mentions `style`. -/
def css_ops_count (execution_log : List ExecutionLogEntry) : Nat :=
  ((execution_log.filter fun entry =>
      strContainsSub entry.operation_type "style").filter fun entry =>
      entry.status == "success").length

/-- Model of `DocVerifierAgent::verify_css`: one check; with no relevant
operations it is skipped, not failed. -/
def verify_css (execution_log : List ExecutionLogEntry) : CheckOutcome :=
  if 0 < css_ops_count execution_log then
    { successful := 1, failed := 0, skipped := 0
      quality_score := quality_from_counts 1 0 0 }
  else
    { successful := 0, failed := 0, skipped := 1
      quality_score := quality_from_counts 0 0 1 }

/-- The success rate `verify_technical` computes over the whole log. -/
def technical_success_rate (execution_log : List ExecutionLogEntry) : Rat :=
  (((execution_log.filter fun entry => entry.status == "success").length : Nat) : Rat)
    / ((execution_log.length : Nat) : Rat)

/-- Model of `DocVerifierAgent::verify_technical`: one check on the overall
execution success rate, passing at a rate of at least 0.9; an empty log skips
the check. -/
def verify_technical (execution_log : List ExecutionLogEntry) : CheckOutcome :=
  if 0 < execution_log.length then
    if 9 / 10 ≤ technical_success_rate execution_log then
      { successful := 1, failed := 0, skipped := 0
        quality_score := quality_from_counts 1 0 0 }
    else
      { successful := 0, failed := 1, skipped := 0
        quality_score := quality_from_counts 0 1 0 }
  else
    { successful := 0, failed := 0, skipped := 1
      quality_score := quality_from_counts 0 0 1 }

/-! ## Theorems -/

theorem evaluate_requirements_foldl (vr : JsonValue)
    (reqs : List (String × Bool)) (acc : List (String × Bool)) (b : Bool) :
    (reqs.foldl
      (fun acc req =>
        let is_satisfied := requirementSatisfied vr req.1 req.2
        (acc.1 ++ [(req.1, is_satisfied)], acc.2 && is_satisfied))
      (acc, b)).2
      = (b && reqs.all fun req => requirementSatisfied vr req.1 req.2) := by
  induction reqs generalizing acc b with
  | nil => simp
  | cons req rest ih =>
    simp only [List.foldl, List.all_cons]
    rw [ih]
    rw [Bool.and_assoc]

/-- Claim C3: `evaluate_requirements` returns
`continue_iteration = !all_satisfied && current_iteration < max_iterations`,
where an entry is satisfied by a boolean payload field iff it equals the
required value and by a numeric payload field iff it exceeds 0.7; hence
`continue_iteration` is false whenever the iteration cap is reached,
regardless of requirement satisfaction. -/
theorem evaluate_requirements_spec (vr : JsonValue)
    (reqs : List (String × Bool)) (current_iteration max_iterations : Nat) :
    ((evaluate_requirements vr reqs current_iteration max_iterations).1
      = (!(reqs.all fun req => requirementSatisfied vr req.1 req.2)
          && decide (current_iteration < max_iterations)))
    ∧ (max_iterations ≤ current_iteration →
        (evaluate_requirements vr reqs current_iteration max_iterations).1 = false)
    ∧ (∀ k b rv, vr.get k = some (JsonValue.bool b) →
        requirementSatisfied vr k rv = (b == rv))
    ∧ (∀ k x rv, vr.get k = some (JsonValue.num x) →
        requirementSatisfied vr k rv = decide (x > 7 / 10)) := by
  refine ⟨?_, ?_, ?_, ?_⟩
  · simp only [evaluate_requirements]
    rw [evaluate_requirements_foldl]
    simp
  · intro hcap
    simp only [evaluate_requirements]
    have : decide (current_iteration < max_iterations) = false := by
      simp [Nat.not_lt.mpr hcap]
    simp [this]
  · intro k b rv hk
    simp [requirementSatisfied, hk, JsonValue.as_bool]
  · intro k x rv hk
    simp [requirementSatisfied, hk, JsonValue.as_bool, JsonValue.as_f64]

/-- Witness for claim C3 at a concrete input: one unmet numeric requirement
but the iteration cap is reached, so no further iteration is requested. -/
theorem evaluate_requirements_spec_witness :
    (evaluate_requirements (JsonValue.obj [("quality", JsonValue.num (1 / 2))])
      [("quality", true)] 3 3).1 = false :=
  (evaluate_requirements_spec (JsonValue.obj [("quality", JsonValue.num (1 / 2))])
    [("quality", true)] 3 3).2.1 (Nat.le_refl 3)

/-- Claim C9: `matches_event_pattern` implements prefix-wildcard matching: a
pattern ending in `*` matches exactly the event names starting with the
pattern minus its trailing `*`, any other pattern matches only the identical
name; in particular `docs-analyze-*` matches `docs-analyze-content` and
`docs-analyze-ui` but not `docs-execute`. -/
theorem matches_event_pattern_spec (m : BaseBehaviorModule)
    (p event_name : String) (hp : m.event_patterns = [p]) :
    (m.matches_event_pattern event_name = true ↔
      ((strEnds p "*" = true ∧ strStarts event_name (strDropLast p) = true)
        ∨ (strEnds p "*" = false ∧ event_name = p)))
    ∧ (∀ mod : BaseBehaviorModule, mod.event_patterns = ["docs-analyze-*"] →
        mod.matches_event_pattern "docs-analyze-content" = true
        ∧ mod.matches_event_pattern "docs-analyze-ui" = true
        ∧ mod.matches_event_pattern "docs-execute" = false) := by
  constructor
  · simp only [BaseBehaviorModule.matches_event_pattern, hp, List.any_cons,
      List.any_nil, Bool.or_false]
    by_cases he : strEnds p "*"
    · simp [he]
    · simp only [he, if_neg (by simp [he] : ¬ strEnds p "*" = true)]
      simp [he, beq_iff_eq]
  · intro mod hm
    refine ⟨?_, ?_, ?_⟩ <;>
      simp only [BaseBehaviorModule.matches_event_pattern, hm] <;> decide

/-- Witness for claim C9: a module registered with the single pattern
`docs-analyze-*` matches `docs-analyze-content`. -/
theorem matches_event_pattern_spec_witness :
    BaseBehaviorModule.matches_event_pattern
      { name := "analyzer", event_patterns := ["docs-analyze-*"]
        required_tools := [], config := [] } "docs-analyze-content" = true :=
  ((matches_event_pattern_spec
    { name := "analyzer", event_patterns := ["docs-analyze-*"]
      required_tools := [], config := [] }
    "docs-analyze-*" "docs-analyze-content" rfl).2
    { name := "analyzer", event_patterns := ["docs-analyze-*"]
      required_tools := [], config := [] } rfl).1

theorem runHandlers_ok (event_name : String) (ev : Event) (hs : List Handler)
    (h : ∀ g ∈ hs, g ev = .ok ()) :
    runHandlers event_name ev hs = .ok () := by
  induction hs with
  | nil => rfl
  | cons g rest ih =>
    have hg : g ev = .ok () := h g (List.mem_cons_self g rest)
    simp only [runHandlers, hg]
    exact ih fun g' hg' => h g' (List.mem_cons_of_mem g hg')

theorem runHandlers_error (event_name : String) (ev : Event)
    (pre : List Handler) (h : Handler) (post : List Handler) (e : EventError)
    (hpre : ∀ g ∈ pre, g ev = .ok ()) (herr : h ev = .error e) :
    runHandlers event_name ev (pre ++ h :: post)
      = .error (.handlerError
          ("Handler error for event " ++ event_name ++ ": " ++ e.message)) := by
  induction pre with
  | nil => simp [runHandlers, herr]
  | cons g rest ih =>
    have hg : g ev = .ok () := hpre g (List.mem_cons_self g rest)
    simp only [List.cons_append, runHandlers, hg]
    exact ih fun g' hg' => hpre g' (List.mem_cons_of_mem g hg')

/-- Claim C6: `emit` invokes exactly the handlers registered for
`event.name()` in registration order: with none registered it returns Ok;
when every handler in that list returns Ok it returns Ok; and when a handler
returns an error after the handlers before it succeeded, `emit` returns that
error wrapped as `HandlerError` — independently of the handlers after it,
which are not invoked. -/
theorem emit_dispatch_spec (sys : EventSystem) (ev : Event) :
    (sys.lookup ev.name = none → emit sys ev = .ok ())
    ∧ (∀ hs, sys.lookup ev.name = some hs →
        (∀ g ∈ hs, g ev = .ok ()) → emit sys ev = .ok ())
    ∧ (∀ hs pre h post e, sys.lookup ev.name = some hs →
        hs = pre ++ h :: post → (∀ g ∈ pre, g ev = .ok ()) →
        h ev = .error e →
        emit sys ev = .error (.handlerError
          ("Handler error for event " ++ ev.name ++ ": " ++ e.message))) := by
  refine ⟨?_, ?_, ?_⟩
  · intro hnone
    simp [emit, hnone]
  · intro hs hlook hok
    simp only [emit, hlook]
    exact runHandlers_ok ev.name ev hs hok
  · intro hs pre h post e hlook hsplit hpre herr
    simp only [emit, hlook, hsplit]
    exact runHandlers_error ev.name ev pre h post e hpre herr

/-- Witness for claim C6: three handlers registered in order under `x`; the
second fails, so `emit` stops there and wraps its error as `HandlerError`,
regardless of the third handler. -/
theorem emit_dispatch_spec_witness :
    emit (register_handler (register_handler (register_handler []
          "x" (fun _ => .ok ()))
          "x" (fun _ => .error (.invalidPayload "boom")))
          "x" (fun _ => .ok ()))
        (.custom "x" .null)
      = .error (.handlerError
          ("Handler error for event x: " ++ "Invalid event payload: boom")) :=
  (emit_dispatch_spec (register_handler (register_handler (register_handler []
        "x" (fun _ => .ok ()))
        "x" (fun _ => .error (.invalidPayload "boom")))
        "x" (fun _ => .ok ()))
      (.custom "x" .null)).2.2
    [fun _ => .ok (), fun _ => .error (.invalidPayload "boom"), fun _ => .ok ()]
    [fun _ => .ok ()] (fun _ => .error (.invalidPayload "boom"))
    [fun _ => .ok ()] (.invalidPayload "boom")
    rfl rfl (by intro g hg; simp at hg; subst hg; rfl) rfl

/-- Claim C10: a doc-sync event is named by prefixing its `event_type` with
`doc_sync.`, emitting it dispatches to the handlers registered under that
prefixed name (a failing such handler surfaces its wrapped error), and a
handler registered under the bare constant `docs-execute` is never invoked by
emitting a doc-sync event carrying that `event_type` (the emit succeeds
without calling it, whatever the handler would return). -/
theorem doc_sync_event_name_spec :
    (∀ e : DocSyncEvent, Event.name (.docSync e) = "doc_sync." ++ e.event_type)
    ∧ (∀ (h : Handler) (e : DocSyncEvent) (err : EventError),
        h (.docSync e) = .error err →
        emit (register_handler [] ("doc_sync." ++ e.event_type) h) (.docSync e)
          = .error (.handlerError
              ("Handler error for event " ++ ("doc_sync." ++ e.event_type)
                ++ ": " ++ err.message)))
    ∧ (∀ (h : Handler) (e : DocSyncEvent), e.event_type = "docs-execute" →
        emit (register_handler [] "docs-execute" h) (.docSync e) = .ok ()) := by
  refine ⟨fun e => rfl, ?_, ?_⟩
  · intro h e err herr
    simp [emit, register_handler, upsert, eraseKey, Event.name,
      List.lookup, runHandlers, herr]
  · intro h e het
    have hname : Event.name (.docSync e) = "doc_sync.docs-execute" := by
      simp [Event.name, het]
    have hne : (("docs-execute" : String) == "doc_sync.docs-execute") = false := by
      decide
    simp [emit, register_handler, upsert, eraseKey, List.lookup, hname, hne]

/-- Witness for claim C10: a handler registered under `docs-execute` that
would fail is not reached when a doc-sync event with `event_type`
`docs-execute` is emitted (its name is `doc_sync.docs-execute`). -/
theorem doc_sync_event_name_spec_witness :
    emit (register_handler [] "docs-execute"
        (fun _ => .error (.handlerError "should not run")))
      (.docSync { event_type := "docs-execute"
                  payload := .otherPayload "Execute"
                  source_agent := "doc-coordinator"
                  target_agent := "doc-runner"
                  timestamp := 0
                  correlation_id := "wf-1" }) = .ok () :=
  doc_sync_event_name_spec.2.2
    (fun _ => .error (.handlerError "should not run"))
    { event_type := "docs-execute", payload := .otherPayload "Execute"
      source_agent := "doc-coordinator", target_agent := "doc-runner"
      timestamp := 0, correlation_id := "wf-1" } rfl

theorem unlock_state_lookup (m : ManagerState) (id : String) :
    (unlock_state m id).locks.lookup id = none :=
  lookup_eraseKey_self id m.locks

theorem update_state_go_snd (m1 : ManagerState) (now : Nat) (id : String)
    (s : DocSyncState) (fn : DocSyncState → DocSyncState) :
    (update_state_go m1 now id s fn).2.locks.lookup id = none := by
  simp only [update_state_go]
  split <;> exact unlock_state_lookup _ _

theorem lock_state_of_unlocked (m : ManagerState) (t : Nat) (id : String)
    (h : m.locks.lookup id = none) :
    lock_state m t id = .ok { m with locks := upsert id t m.locks } := by
  simp [lock_state, h]

/-- Claim C4: after a successful `lock_state`, a second `lock_state` for the
same id before the timeout has elapsed fails with `LockError`; once the
recorded timestamp is at least `lock_timeout` old, a subsequent `lock_state`
succeeds by silently replacing the expired entry with the new timestamp. -/
theorem lock_state_timeout_exclusion (m m1 : ManagerState) (t0 t1 t2 : Nat)
    (id : String) (hlock : lock_state m t0 id = .ok m1) :
    (t1 - t0 < m.lock_timeout →
      lock_state m1 t1 id = .error (.lockError
        ("State is already locked for correlation ID: " ++ id)))
    ∧ (m.lock_timeout ≤ t2 - t0 →
      lock_state m1 t2 id = .ok { m1 with locks := upsert id t2 m1.locks }) := by
  have hm1 : m1 = { m with locks := upsert id t0 m.locks } := by
    simp only [lock_state] at hlock
    cases hml : m.locks.lookup id with
    | none => simp [hml] at hlock; exact hlock.symm
    | some lock_time =>
      simp only [hml] at hlock
      by_cases hc : t0 - lock_time < m.lock_timeout
      · simp [hc] at hlock
      · simp [hc] at hlock
        exact hlock.symm
  subst hm1
  constructor
  · intro hfresh
    simp [lock_state, lookup_upsert_self, hfresh]
  · intro hexp
    simp [lock_state, lookup_upsert_self, Nat.not_lt.mpr hexp]

/-- Witness for claim C4 at the default 60-second timeout: a lock taken at
time 0 blocks a second `lock_state` at time 59 and is silently stolen by one
at time 60. -/
theorem lock_state_timeout_exclusion_witness :
    lock_state { files := [], locks := [("wf-1", 0)], lock_timeout := 60
                 failWrites := [] } 59 "wf-1"
      = .error (.lockError
          ("State is already locked for correlation ID: " ++ "wf-1"))
    ∧ lock_state { files := [], locks := [("wf-1", 0)], lock_timeout := 60
                   failWrites := [] } 60 "wf-1"
      = .ok { files := [], locks := [("wf-1", 60)], lock_timeout := 60
              failWrites := [] } :=
  have h := lock_state_timeout_exclusion newStateManager
    { files := [], locks := [("wf-1", 0)], lock_timeout := 60, failWrites := [] }
    0 59 60 "wf-1" rfl
  ⟨h.1 (by decide), h.2 (by decide)⟩

/-- Claim C1: whenever `update_state` returns Ok, a read error, or a write
error — every outcome other than failing to acquire the lock in the first
place — the advisory lock for the id is no longer held, so an immediately
following `lock_state` for that id succeeds (at any time). -/
theorem update_state_releases_lock (m : ManagerState) (now : Nat)
    (id : String) (fn : DocSyncState → DocSyncState)
    (h : (update_state m now id fn).1 = .ok ()
      ∨ (update_state m now id fn).1 = .error .jsonSerialization
      ∨ (update_state m now id fn).1 = .error .fileIo) :
    ((update_state m now id fn).2.locks.lookup id = none)
    ∧ ∀ t, ∃ m2, lock_state (update_state m now id fn).2 t id = .ok m2 := by
  have hrel : (update_state m now id fn).2.locks.lookup id = none := by
    simp only [update_state] at h ⊢
    cases hl : lock_state m now id with
    | error e =>
      simp only [hl] at h
      cases hml : m.locks.lookup id with
      | none => simp [lock_state, hml] at hl
      | some lock_time =>
        simp only [lock_state, hml] at hl
        by_cases hc : now - lock_time < m.lock_timeout
        · simp only [if_pos hc] at hl
          cases hl
          rcases h with h | h | h <;> simp at h
        · simp [if_neg hc] at hl
    | ok m1 =>
      simp only [hl]
      cases hr : read_state m1 id with
      | ok s =>
        simp only [hr]
        exact update_state_go_snd m1 now id s fn
      | error e =>
        cases e <;> simp only [hr] <;>
          first
          | exact update_state_go_snd m1 now id _ fn
          | exact unlock_state_lookup m1 id
  refine ⟨hrel, fun t => ⟨_, lock_state_of_unlocked _ t id hrel⟩⟩

/-- Witness for claim C1: updating a fresh workflow id on a clean manager
succeeds and leaves the lock map without an entry for that id, so locking it
again immediately succeeds. -/
theorem update_state_releases_lock_witness :
    ((update_state newStateManager 100 "wf-1" (fun s => s)).2.locks.lookup "wf-1"
        = none)
    ∧ ∃ m2, lock_state (update_state newStateManager 100 "wf-1" (fun s => s)).2
        100 "wf-1" = .ok m2 :=
  have h := update_state_releases_lock newStateManager 100 "wf-1" (fun s => s)
    (Or.inl rfl)
  ⟨h.1, h.2 100⟩

/-- Claim C5 as stated is false on the code: `write_state` opens the target
path with `File::create`, which truncates the existing file in place before
`write_all` runs, so a reader between the two steps observes a partially
written (empty) state file that is neither the old nor the new contents. -/
theorem write_state_not_atomic :
    ¬ (∀ o ∈ write_state_steps
          { dirs := ["states"], files := [("states/wf-1.json", "old")] }
          "states" "wf-1" "new",
        o.files.lookup "states/wf-1.json" = some "old"
          ∨ o.files.lookup "states/wf-1.json" = some "new") := by
  decide

/-- Claim C5 amended: `write_state` serializes the full state to
`<dir>/<id>.json`, creating the parent directory as needed, and after it
completes the file holds exactly the new serialized state; but the overwrite
is not atomic from a reader's perspective — between the in-place truncation
of `File::create` and the `write_all`, an empty partially-written file is
observable. -/
theorem write_state_overwrite_spec (fs : DiskFs)
    (state_dir correlation_id state_json : String) :
    (((write_state_steps fs state_dir correlation_id state_json).getLastD fs).files.lookup
        (state_file_path state_dir correlation_id) = some state_json)
    ∧ (((write_state_steps fs state_dir correlation_id state_json).getLastD fs).dirs.contains
        state_dir = true)
    ∧ ∃ o ∈ write_state_steps fs state_dir correlation_id state_json,
        o.files.lookup (state_file_path state_dir correlation_id) = some "" := by
  refine ⟨?_, ?_, ?_⟩
  · simp [write_state_steps, List.getLastD, lookup_upsert_self]
  · simp only [write_state_steps, List.getLastD]
    by_cases hm : state_dir ∈ fs.dirs <;> simp [hm]
  · refine ⟨{ dirs := if fs.dirs.contains state_dir then fs.dirs
                      else state_dir :: fs.dirs
              files := upsert (state_file_path state_dir correlation_id) ""
                fs.files }, ?_, ?_⟩
    · simp only [write_state_steps]
      exact List.mem_cons_of_mem _ (List.mem_cons_self _ _)
    · exact lookup_upsert_self _ _ _

/-- Claim C8 as stated is false for the content category: with zero relevant
content operations, `verify_content` counts its single check as failed and
scores 0.0 — its scoring block has no skipped-implies-0.8 branch. -/
theorem verify_content_zero_ops_penalized :
    ¬ ((verify_content []).quality_score = 4 / 5
        ∧ (verify_content []).failed = 0) := by
  intro h
  have h1 : (verify_content []).failed = 1 := rfl
  exact Nat.one_ne_zero (h1 ▸ h.2)

/-- Claim C8 amended: for the structure, ui, css and technical categories, a
category whose relevant checks all succeed scores 1.0, failures reduce the
score to successes/(successes+failures), and zero relevant operations is
scored as skipped with an assumed quality of 0.8; the content category
instead counts zero relevant operations as a failed check scoring 0.0. -/
theorem verifier_category_scoring (log : List ExecutionLogEntry) :
    (0 < content_ops_count log → verify_content log
        = { successful := 1, failed := 0, skipped := 0, quality_score := 1 })
    ∧ (content_ops_count log = 0 → verify_content log
        = { successful := 0, failed := 1, skipped := 0, quality_score := 0 })
    ∧ (0 < structure_ops_count log → verify_structure log
        = { successful := 1, failed := 0, skipped := 0, quality_score := 1 })
    ∧ (structure_ops_count log = 0 → verify_structure log
        = { successful := 0, failed := 0, skipped := 1, quality_score := 4 / 5 })
    ∧ (0 < ui_ops_count log → verify_ui log
        = { successful := 1, failed := 0, skipped := 0, quality_score := 1 })
    ∧ (ui_ops_count log = 0 → verify_ui log
        = { successful := 0, failed := 0, skipped := 1, quality_score := 4 / 5 })
    ∧ (0 < css_ops_count log → verify_css log
        = { successful := 1, failed := 0, skipped := 0, quality_score := 1 })
    ∧ (css_ops_count log = 0 → verify_css log
        = { successful := 0, failed := 0, skipped := 1, quality_score := 4 / 5 })
    ∧ (log = [] → verify_technical log
        = { successful := 0, failed := 0, skipped := 1, quality_score := 4 / 5 })
    ∧ (0 < log.length → 9 / 10 ≤ technical_success_rate log →
        verify_technical log
          = { successful := 1, failed := 0, skipped := 0, quality_score := 1 })
    ∧ (0 < log.length → technical_success_rate log < 9 / 10 →
        verify_technical log
          = { successful := 0, failed := 1, skipped := 0, quality_score := 0 })
    ∧ (∀ s f sk : Nat, 0 < s →
        quality_from_counts s f sk = (s : Rat) / ((s + f : Nat) : Rat))
    ∧ (∀ s f : Nat, 0 < s →
        quality_from_counts_content s f = (s : Rat) / ((s + f : Nat) : Rat)) := by
  have hratio : ∀ s f : Nat, 0 < s →
      (if 0 < s ∧ f = 0 then (1 : Rat)
        else if 0 < s then (s : Rat) / ((s + f : Nat) : Rat) else 0)
        = (s : Rat) / ((s + f : Nat) : Rat) := by
    intro s f hs
    by_cases hf : f = 0
    · subst hf
      rw [if_pos ⟨hs, rfl⟩]
      rw [Nat.add_zero]
      rw [div_self (by exact_mod_cast Nat.pos_iff_ne_zero.mp hs)]
    · rw [if_neg (by exact fun hc => hf hc.2)]
      rw [if_pos hs]
  refine ⟨?_, ?_, ?_, ?_, ?_, ?_, ?_, ?_, ?_, ?_, ?_, ?_, ?_⟩
  · intro h
    simp [verify_content, h, quality_from_counts_content]
  · intro h
    simp [verify_content, h, quality_from_counts_content]
  · intro h
    simp [verify_structure, h, quality_from_counts]
  · intro h
    simp [verify_structure, h, quality_from_counts]
  · intro h
    simp [verify_ui, h, quality_from_counts]
  · intro h
    simp [verify_ui, h, quality_from_counts]
  · intro h
    simp [verify_css, h, quality_from_counts]
  · intro h
    simp [verify_css, h, quality_from_counts]
  · intro h
    subst h
    simp [verify_technical, quality_from_counts]
  · intro hlen hrate
    simp [verify_technical, hlen, hrate, quality_from_counts]
  · intro hlen hrate
    simp [verify_technical, hlen, not_le.mpr hrate, quality_from_counts]
  · intro s f sk hs
    simp only [quality_from_counts]
    by_cases hf : f = 0
    · rw [if_pos ⟨hs, hf⟩]
      subst hf
      rw [Nat.add_zero]
      rw [div_self (by exact_mod_cast Nat.pos_iff_ne_zero.mp hs)]
    · rw [if_neg (by exact fun hc => hf hc.2)]
      rw [if_pos hs]
  · intro s f hs
    simp only [quality_from_counts_content]
    exact hratio s f hs

/-- Witness for the amended claim C8 on the empty execution log: content is
scored as a failure at 0.0 while structure is scored as skipped at 0.8. -/
theorem verifier_category_scoring_witness :
    verify_content []
      = { successful := 0, failed := 1, skipped := 0, quality_score := 0 }
    ∧ verify_structure []
      = { successful := 0, failed := 0, skipped := 1, quality_score := 4 / 5 } :=
  ⟨(verifier_category_scoring []).2.1 rfl,
    (verifier_category_scoring []).2.2.2.1 rfl⟩

theorem validate_content_operation_error (fs : Fs) (op : ContentOperation)
    (e : DocRunnerError) (h : validate_content_operation fs op = .error e) :
    ∃ msg, e = .validationError msg := by
  simp only [validate_content_operation] at h
  repeat' split at h
  all_goals
    first
    | (injection h with he; exact ⟨_, he.symm⟩)
    | cases h

theorem validate_structure_operation_error (op : StructureOperation)
    (e : DocRunnerError) (h : validate_structure_operation op = .error e) :
    ∃ msg, e = .validationError msg := by
  simp only [validate_structure_operation] at h
  repeat' split at h
  all_goals
    first
    | (injection h with he; exact ⟨_, he.symm⟩)
    | cases h

theorem validate_ui_operation_error (op : UiOperation)
    (e : DocRunnerError) (h : validate_ui_operation op = .error e) :
    ∃ msg, e = .validationError msg := by
  simp only [validate_ui_operation] at h
  repeat' split at h
  all_goals
    first
    | (injection h with he; exact ⟨_, he.symm⟩)
    | cases h

theorem validate_css_operation_error (op : CssOperation)
    (e : DocRunnerError) (h : validate_css_operation op = .error e) :
    ∃ msg, e = .validationError msg := by
  simp only [validate_css_operation] at h
  repeat' split at h
  all_goals
    first
    | (injection h with he; exact ⟨_, he.symm⟩)
    | cases h

theorem validate_operation_error (fs : Fs) (op : SyncOperation)
    (e : DocRunnerError) (h : validate_operation fs op = .error e) :
    ∃ msg, e = .validationError msg := by
  cases op with
  | contentOperation op => exact validate_content_operation_error fs op e h
  | structureOperation op => exact validate_structure_operation_error op e h
  | uiOperation op => exact validate_ui_operation_error op e h
  | cssOperation op => exact validate_css_operation_error op e h

theorem validate_all_error (fs : Fs) (ops : List SyncOperation)
    (h : ∃ op ∈ ops, ∃ e, validate_operation fs op = .error e) :
    ∃ msg, validate_all fs ops = .error (.validationError msg) := by
  induction ops with
  | nil =>
    obtain ⟨op, hop, _⟩ := h
    cases hop
  | cons op rest ih =>
    cases hv : validate_operation fs op with
    | ok u =>
      obtain ⟨op', hmem, e', he'⟩ := h
      rcases List.mem_cons.mp hmem with heq | hmem'
      · subst heq
        rw [hv] at he'
        cases he'
      · obtain ⟨msg, hmsg⟩ := ih ⟨op', hmem', e', he'⟩
        exact ⟨msg, by simp [validate_all, hv, hmsg]⟩
    | error e =>
      obtain ⟨msg, hmsg⟩ := validate_operation_error fs op e hv
      subst hmsg
      exact ⟨msg, by simp [validate_all, hv]⟩

theorem execute_operation_ok_status (fs : Fs) (now : Nat) (op : SyncOperation)
    (r : OperationResult) (fs1 : Fs)
    (h : execute_operation fs now op = .ok (r, fs1)) :
    r.status = "success" ∧ r.error_message = none := by
  cases op with
  | contentOperation op =>
    simp only [execute_operation, execute_content_operation] at h
    repeat' split at h
    all_goals
      first
      | (injection h with he; injection he with h1 h2; subst h1; exact ⟨rfl, rfl⟩)
      | cases h
  | structureOperation op =>
    simp only [execute_operation, execute_structure_operation] at h
    repeat' split at h
    all_goals
      first
      | (injection h with he; injection he with h1 h2; subst h1; exact ⟨rfl, rfl⟩)
      | cases h
  | uiOperation op =>
    simp only [execute_operation, execute_ui_operation] at h
    repeat' split at h
    all_goals
      first
      | (injection h with he; injection he with h1 h2; subst h1; exact ⟨rfl, rfl⟩)
      | cases h
  | cssOperation op =>
    simp only [execute_operation, execute_css_operation] at h
    repeat' split at h
    all_goals
      first
      | (injection h with he; injection he with h1 h2; subst h1; exact ⟨rfl, rfl⟩)
      | cases h

theorem update_state_ok (m : ManagerState) (now : Nat) (id : String)
    (fn : DocSyncState → DocSyncState)
    (hlock : m.locks.lookup id = none)
    (hfile : m.files.lookup id ≠ some .corrupt)
    (hw : m.failWrites.contains id = false) :
    ∃ m1, update_state m now id fn = (.ok (), m1)
      ∧ m1.locks.lookup id = none
      ∧ m1.files.lookup id ≠ some .corrupt
      ∧ m1.failWrites = m.failWrites := by
  have hl := lock_state_of_unlocked m now id hlock
  simp only [update_state, hl]
  set mL : ManagerState := { m with locks := upsert id now m.locks } with hmL
  have hfiles : mL.files = m.files := rfl
  have hfw : mL.failWrites = m.failWrites := rfl
  have hwr : ∀ s2, write_state mL id s2
      = .ok { mL with files := upsert id (.valid s2) mL.files } := by
    intro s2
    simp only [write_state]
    rw [show mL.failWrites.contains id = false from hw]
    simp
  have hvalid : ∀ (X : ManagerState) s2,
      (unlock_state { X with files := upsert id (.valid s2) X.files } id).files.lookup id
        ≠ some .corrupt := by
    intro X s2 hcon
    simp only [unlock_state] at hcon
    rw [lookup_upsert_self] at hcon
    exact StoredFile.noConfusion (Option.some.inj hcon)
  cases hr : m.files.lookup id with
  | none =>
    have hread : read_state mL id = .error (.notFound id) := by
      simp [read_state, hfiles, hr]
    simp only [hread, update_state_go, hwr]
    exact ⟨_, rfl, unlock_state_lookup _ _, hvalid mL _, rfl⟩
  | some sf =>
    cases sf with
    | corrupt => exact absurd hr hfile
    | valid s =>
      have hread : read_state mL id = .ok s := by
        simp [read_state, hfiles, hr]
      simp only [hread, update_state_go, hwr]
      exact ⟨_, rfl, unlock_state_lookup _ _, hvalid mL _, rfl⟩

theorem execute_ops_spec (now : Nat) (ops : List SyncOperation) :
    ∀ (fs : Fs) (results : ExecutionResults) (log : List ExecutionLogEntry),
      ∃ newlog,
        (execute_ops now fs ops results log).2.1 = log ++ newlog
        ∧ newlog.length = ops.length
        ∧ (execute_ops now fs ops results log).1.successful_operations
            = results.successful_operations
              + (newlog.filter fun en => en.status == "success").length
        ∧ (execute_ops now fs ops results log).1.failed_operations
            = results.failed_operations
              + (newlog.filter fun en => en.status == "failure").length
        ∧ (execute_ops now fs ops results log).1.skipped_operations
            = results.skipped_operations
              + (newlog.filter fun en => en.status == "skipped").length
        ∧ ∀ en ∈ newlog,
            (en.status = "success" ∧ en.error_message = none)
            ∨ (en.status = "failure" ∧ en.error_message.isSome = true) := by
  induction ops with
  | nil =>
    intro fs results log
    refine ⟨[], ?_, rfl, ?_, ?_, ?_, ?_⟩ <;> simp [execute_ops]
  | cons op rest ih =>
    intro fs results log
    cases hv : execute_operation fs now op with
    | ok pr =>
      obtain ⟨r, fs1⟩ := pr
      obtain ⟨hst, hmsg⟩ := execute_operation_ok_status fs now op r fs1 hv
      have hloop : execute_ops now fs (op :: rest) results log
          = execute_ops now fs1 rest
              { results with successful_operations := results.successful_operations + 1 }
              (log ++ [{ operation_type := r.operation_type, status := r.status
                         target_path := r.target_path
                         error_message := r.error_message
                         metadata := r.metadata, timestamp := r.timestamp }]) := by
        simp only [execute_ops, hv, hst]
        simp
      obtain ⟨nl, h1, h2, h3, h4, h5, h6⟩ := ih fs1
        { results with successful_operations := results.successful_operations + 1 }
        (log ++ [{ operation_type := r.operation_type, status := r.status
                   target_path := r.target_path
                   error_message := r.error_message
                   metadata := r.metadata, timestamp := r.timestamp }])
      refine ⟨{ operation_type := r.operation_type, status := r.status
                target_path := r.target_path
                error_message := r.error_message
                metadata := r.metadata, timestamp := r.timestamp } :: nl,
        ?_, ?_, ?_, ?_, ?_, ?_⟩
      · rw [hloop, h1, List.append_assoc]
        rfl
      · simp [h2]
      · rw [hloop, h3]
        simp [hst]
        omega
      · rw [hloop, h4]
        simp [hst]
      · rw [hloop, h5]
        simp [hst]
      · intro en hen
        rcases List.mem_cons.mp hen with heq | hmem
        · subst heq
          exact Or.inl ⟨hst, hmsg⟩
        · exact h6 en hmem
    | error e =>
      have hloop : execute_ops now fs (op :: rest) results log
          = execute_ops now fs rest
              { results with failed_operations := results.failed_operations + 1 }
              (log ++ [{ operation_type := op.operation_type, status := "failure"
                         target_path := op.target_path
                         error_message := some ("Error executing operation: " ++ e.message)
                         metadata := [], timestamp := now }]) := by
        simp only [execute_ops, hv]
      obtain ⟨nl, h1, h2, h3, h4, h5, h6⟩ := ih fs
        { results with failed_operations := results.failed_operations + 1 }
        (log ++ [{ operation_type := op.operation_type, status := "failure"
                   target_path := op.target_path
                   error_message := some ("Error executing operation: " ++ e.message)
                   metadata := [], timestamp := now }])
      refine ⟨{ operation_type := op.operation_type, status := "failure"
                target_path := op.target_path
                error_message := some ("Error executing operation: " ++ e.message)
                metadata := [], timestamp := now } :: nl,
        ?_, ?_, ?_, ?_, ?_, ?_⟩
      · rw [hloop, h1, List.append_assoc]
        rfl
      · simp [h2]
      · rw [hloop, h3]
        simp
      · rw [hloop, h4]
        simp
        omega
      · rw [hloop, h5]
        simp
      · intro en hen
        rcases List.mem_cons.mp hen with heq | hmem
        · subst heq
          exact Or.inr ⟨rfl, rfl⟩
        · exact h6 en hmem

theorem dry_run_ops_spec (now : Nat) (ops : List SyncOperation) :
    ∀ (results : ExecutionResults) (log : List ExecutionLogEntry),
      ∃ newlog,
        (dry_run_ops now ops results log).2 = log ++ newlog
        ∧ newlog.length = ops.length
        ∧ (∀ en ∈ newlog, en.status = "skipped")
        ∧ (dry_run_ops now ops results log).1.successful_operations
            = results.successful_operations
        ∧ (dry_run_ops now ops results log).1.failed_operations
            = results.failed_operations
        ∧ (dry_run_ops now ops results log).1.skipped_operations
            = results.skipped_operations + ops.length := by
  induction ops with
  | nil =>
    intro results log
    refine ⟨[], ?_, rfl, ?_, ?_, ?_, ?_⟩ <;> simp [dry_run_ops]
  | cons op rest ih =>
    intro results log
    have hloop : dry_run_ops now (op :: rest) results log
        = dry_run_ops now rest
            { results with skipped_operations := results.skipped_operations + 1 }
            (log ++ [{ operation_type := op.operation_type, status := "skipped"
                       target_path := op.target_path, error_message := none
                       metadata := [("reason", "dry_run")], timestamp := now }]) := by
      simp only [dry_run_ops]
    obtain ⟨nl, h1, h2, h3, h4, h5, h6⟩ := ih
      { results with skipped_operations := results.skipped_operations + 1 }
      (log ++ [{ operation_type := op.operation_type, status := "skipped"
                 target_path := op.target_path, error_message := none
                 metadata := [("reason", "dry_run")], timestamp := now }])
    refine ⟨{ operation_type := op.operation_type, status := "skipped"
              target_path := op.target_path, error_message := none
              metadata := [("reason", "dry_run")], timestamp := now } :: nl,
      ?_, ?_, ?_, ?_, ?_, ?_⟩
    · rw [hloop, h1, List.append_assoc]
      rfl
    · simp [h2]
    · intro en hen
      rcases List.mem_cons.mp hen with heq | hmem
      · subst heq
        rfl
      · exact h3 en hmem
    · rw [hloop, h4]
    · rw [hloop, h5]
    · rw [hloop, h6]
      simp
      omega

/-- Claim C2: handling an Execute batch is validate-all-then-execute-each.
If any operation fails its type-specific validation the handler returns a
`ValidationError` and no operation target file is touched; otherwise (not a
dry run) every operation is executed: the log has one entry per operation,
each counter equals the number of log entries with the matching status, and a
failed execution yields a `"failure"` entry carrying a message without
aborting the remaining operations.  The hypotheses say the workflow state is
not locked, not corrupt, and writable, so the surrounding `update_state`
bookkeeping succeeds. -/
theorem handle_execute_validate_then_execute (world : RunnerWorld) (now : Nat)
    (event : DocSyncEvent) (p : ExecutePayload)
    (hp : event.payload = .execute p)
    (hlock : world.manager.locks.lookup event.correlation_id = none)
    (hfile : world.manager.files.lookup event.correlation_id ≠ some .corrupt)
    (hw : world.manager.failWrites.contains event.correlation_id = false) :
    ((∃ op ∈ p.operations, ∃ e, validate_operation world.fs op = .error e) →
      (∃ msg, (handle_execute_event world now event).1
          = .error (.validationError msg))
      ∧ (handle_execute_event world now event).2.fs = world.fs)
    ∧ (validate_all world.fs p.operations = .ok () →
        p.execution_params.dry_run = false →
        ∃ payload, (handle_execute_event world now event).1 = .ok payload
          ∧ payload.execution_log.length = p.operations.length
          ∧ payload.execution_results.successful_operations
              = (payload.execution_log.filter fun en => en.status == "success").length
          ∧ payload.execution_results.failed_operations
              = (payload.execution_log.filter fun en => en.status == "failure").length
          ∧ payload.execution_results.skipped_operations
              = (payload.execution_log.filter fun en => en.status == "skipped").length
          ∧ ∀ en ∈ payload.execution_log,
              en.status = "failure" → en.error_message.isSome = true) := by
  obtain ⟨m1, hu1, hl1, hf1, hfw1⟩ :=
    update_state_ok world.manager now event.correlation_id executing_update
      hlock hfile hw
  have hw1 : m1.failWrites.contains event.correlation_id = false := by
    rw [hfw1]
    exact hw
  constructor
  · intro hbad
    obtain ⟨msg, hva⟩ := validate_all_error world.fs p.operations hbad
    constructor
    · exact ⟨msg, by simp [handle_execute_event, hp, hu1, hva]⟩
    · simp [handle_execute_event, hp, hu1, hva]
  · intro hva hdry
    obtain ⟨nl, h1, h2, h3, h4, h5, h6⟩ :=
      execute_ops_spec now p.operations world.fs
        { successful_operations := 0, failed_operations := 0
          skipped_operations := 0, metadata := [] } []
    obtain ⟨m2, hu2, hx1, hx2, hx3⟩ :=
      update_state_ok m1 now event.correlation_id
        (execution_complete_update
          (execute_ops now world.fs p.operations
            { successful_operations := 0, failed_operations := 0
              skipped_operations := 0, metadata := [] } []).1)
        hl1 hf1 hw1
    rw [List.nil_append] at h1
    refine ⟨{ doc_map := p.doc_map
              execution_results :=
                (execute_ops now world.fs p.operations
                  { successful_operations := 0, failed_operations := 0
                    skipped_operations := 0, metadata := [] } []).1
              execution_log :=
                (execute_ops now world.fs p.operations
                  { successful_operations := 0, failed_operations := 0
                    skipped_operations := 0, metadata := [] } []).2.1 },
      ?_, ?_, ?_, ?_, ?_, ?_⟩
    · simp [handle_execute_event, hp, hu1, hva, hdry, hu2]
    · rw [h1, h2]
    · rw [h3, h1]
      simp
    · rw [h4, h1]
      simp
    · rw [h5, h1]
      simp
    · intro en hen hfail
      rw [h1] at hen
      rcases h6 en hen with ⟨hs, _⟩ | ⟨_, hm⟩
      · exact absurd (hfail.symm.trans hs) (by decide)
      · exact hm

/-- Witness for claim C2: a batch containing a create operation whose target
path contains `..` is rejected with a `ValidationError` and the target
filesystem is untouched. -/
theorem handle_execute_validate_then_execute_witness :
    (∃ msg, (handle_execute_event { manager := newStateManager, fs := [] } 0
        { event_type := "docs-execute"
          payload := .execute
            { doc_map := DocumentationMap.default
              operations := [.contentOperation
                { operation_type := "create", source_path := "docs/a.md"
                  target_path := "../escape.md", content := some "hi"
                  metadata := [] }]
              execution_params :=
                { dry_run := false, max_parallel_operations := 1
                  backup := false, metadata := [] } }
          source_agent := "doc-coordinator", target_agent := "doc-runner"
          timestamp := 0, correlation_id := "wf-1" }).1
      = .error (.validationError msg))
    ∧ (handle_execute_event { manager := newStateManager, fs := [] } 0
        { event_type := "docs-execute"
          payload := .execute
            { doc_map := DocumentationMap.default
              operations := [.contentOperation
                { operation_type := "create", source_path := "docs/a.md"
                  target_path := "../escape.md", content := some "hi"
                  metadata := [] }]
              execution_params :=
                { dry_run := false, max_parallel_operations := 1
                  backup := false, metadata := [] } }
          source_agent := "doc-coordinator", target_agent := "doc-runner"
          timestamp := 0, correlation_id := "wf-1" }).2.fs = [] :=
  (handle_execute_validate_then_execute
      { manager := newStateManager, fs := [] } 0
      { event_type := "docs-execute"
        payload := .execute
          { doc_map := DocumentationMap.default
            operations := [.contentOperation
              { operation_type := "create", source_path := "docs/a.md"
                target_path := "../escape.md", content := some "hi"
                metadata := [] }]
            execution_params :=
              { dry_run := false, max_parallel_operations := 1
                backup := false, metadata := [] } }
        source_agent := "doc-coordinator", target_agent := "doc-runner"
        timestamp := 0, correlation_id := "wf-1" }
      { doc_map := DocumentationMap.default
        operations := [.contentOperation
          { operation_type := "create", source_path := "docs/a.md"
            target_path := "../escape.md", content := some "hi"
            metadata := [] }]
        execution_params :=
          { dry_run := false, max_parallel_operations := 1
            backup := false, metadata := [] } }
      rfl rfl (by intro h; cases h) rfl).1
    ⟨.contentOperation
      { operation_type := "create", source_path := "docs/a.md"
        target_path := "../escape.md", content := some "hi", metadata := [] },
      List.mem_cons_self _ _, ⟨_, rfl⟩⟩

/-- Claim C7: with `dry_run` set, handling an Execute batch performs no
filesystem operation on any target path (the runner filesystem is returned
unchanged on every path, validation failure included), and when validation
passes the handler succeeds with a log whose every entry has status
`"skipped"`, zero successful and failed counters, and a skipped counter equal
to the batch size. -/
theorem handle_execute_dry_run_spec (world : RunnerWorld) (now : Nat)
    (event : DocSyncEvent) (p : ExecutePayload)
    (hp : event.payload = .execute p)
    (hdry : p.execution_params.dry_run = true)
    (hlock : world.manager.locks.lookup event.correlation_id = none)
    (hfile : world.manager.files.lookup event.correlation_id ≠ some .corrupt)
    (hw : world.manager.failWrites.contains event.correlation_id = false) :
    ((handle_execute_event world now event).2.fs = world.fs)
    ∧ (validate_all world.fs p.operations = .ok () →
        ∃ payload, (handle_execute_event world now event).1 = .ok payload
          ∧ (∀ en ∈ payload.execution_log, en.status = "skipped")
          ∧ payload.execution_results.successful_operations = 0
          ∧ payload.execution_results.failed_operations = 0
          ∧ payload.execution_results.skipped_operations = p.operations.length
          ∧ payload.execution_log.length = p.operations.length) := by
  obtain ⟨m1, hu1, hl1, hf1, hfw1⟩ :=
    update_state_ok world.manager now event.correlation_id executing_update
      hlock hfile hw
  have hw1 : m1.failWrites.contains event.correlation_id = false := by
    rw [hfw1]
    exact hw
  obtain ⟨m2, hu2, hx1, hx2, hx3⟩ :=
    update_state_ok m1 now event.correlation_id
      (execution_complete_update
        (dry_run_ops now p.operations
          { successful_operations := 0, failed_operations := 0
            skipped_operations := 0, metadata := [] } []).1)
      hl1 hf1 hw1
  obtain ⟨nl, h1, h2, h3, h4, h5, h6⟩ :=
    dry_run_ops_spec now p.operations
      { successful_operations := 0, failed_operations := 0
        skipped_operations := 0, metadata := [] } []
  rw [List.nil_append] at h1
  constructor
  · cases hva : validate_all world.fs p.operations with
    | error e => simp [handle_execute_event, hp, hu1, hva]
    | ok u => simp [handle_execute_event, hp, hu1, hva, hdry, hu2]
  · intro hva
    refine ⟨{ doc_map := p.doc_map
              execution_results :=
                (dry_run_ops now p.operations
                  { successful_operations := 0, failed_operations := 0
                    skipped_operations := 0, metadata := [] } []).1
              execution_log :=
                (dry_run_ops now p.operations
                  { successful_operations := 0, failed_operations := 0
                    skipped_operations := 0, metadata := [] } []).2 },
      ?_, ?_, ?_, ?_, ?_, ?_⟩
    · simp [handle_execute_event, hp, hu1, hva, hdry, hu2]
    · intro en hen
      rw [h1] at hen
      exact h3 en hen
    · rw [h4]
    · rw [h5]
    · rw [h6]
      simp
    · rw [h1, h2]

/-- Witness for claim C7: a dry-run batch with one valid create operation
leaves the filesystem unchanged and reports one skipped operation. -/
theorem handle_execute_dry_run_spec_witness :
    ((handle_execute_event { manager := newStateManager, fs := [] } 0
        { event_type := "docs-execute"
          payload := .execute
            { doc_map := DocumentationMap.default
              operations := [.contentOperation
                { operation_type := "create", source_path := "docs/a.md"
                  target_path := "docs/a.md", content := some "hello"
                  metadata := [] }]
              execution_params :=
                { dry_run := true, max_parallel_operations := 1
                  backup := false, metadata := [] } }
          source_agent := "doc-coordinator", target_agent := "doc-runner"
          timestamp := 0, correlation_id := "wf-1" }).2.fs = [])
    ∧ ∃ payload,
        (handle_execute_event { manager := newStateManager, fs := [] } 0
          { event_type := "docs-execute"
            payload := .execute
              { doc_map := DocumentationMap.default
                operations := [.contentOperation
                  { operation_type := "create", source_path := "docs/a.md"
                    target_path := "docs/a.md", content := some "hello"
                    metadata := [] }]
                execution_params :=
                  { dry_run := true, max_parallel_operations := 1
                    backup := false, metadata := [] } }
            source_agent := "doc-coordinator", target_agent := "doc-runner"
            timestamp := 0, correlation_id := "wf-1" }).1 = .ok payload
        ∧ (∀ en ∈ payload.execution_log, en.status = "skipped")
        ∧ payload.execution_results.successful_operations = 0
        ∧ payload.execution_results.failed_operations = 0
        ∧ payload.execution_results.skipped_operations = 1
        ∧ payload.execution_log.length = 1 :=
  have h := handle_execute_dry_run_spec
    { manager := newStateManager, fs := [] } 0
    { event_type := "docs-execute"
      payload := .execute
        { doc_map := DocumentationMap.default
          operations := [.contentOperation
            { operation_type := "create", source_path := "docs/a.md"
              target_path := "docs/a.md", content := some "hello"
              metadata := [] }]
          execution_params :=
            { dry_run := true, max_parallel_operations := 1
              backup := false, metadata := [] } }
      source_agent := "doc-coordinator", target_agent := "doc-runner"
      timestamp := 0, correlation_id := "wf-1" }
    { doc_map := DocumentationMap.default
      operations := [.contentOperation
        { operation_type := "create", source_path := "docs/a.md"
          target_path := "docs/a.md", content := some "hello"
          metadata := [] }]
      execution_params :=
        { dry_run := true, max_parallel_operations := 1
          backup := false, metadata := [] } }
    rfl rfl rfl (by intro h; cases h) rfl
  ⟨h.1, h.2 rfl⟩

end Forge
